import Mathlib

/-!
Shallow embedding of the authentication and authorization core of a
role-based task-management REST API (FastAPI backend under
`backend/app`).  Pure functions model the CRUD layer
(`app/crud/user.py`, `app/crud/task.py`), the dependency pipeline
(`app/core/dependencies.py`) and the route handlers
(`app/api/v1/auth.py`, `app/api/v1/tasks.py`).  The relational store is
modelled as an explicit in-memory state (`DB`) threaded through the
operations; SQLAlchemy queries `filter(...).first()` become
`List.filter` followed by `head?`, and `offset/limit` become
`drop/take`.  The password hasher and the JWT token service live in
`app/core/security.py`, which is not part of the provided sources; those
two components are modelled from the specification (Sections 4.1 and
4.2) and are marked as such in their doc comments.
-/

namespace App

/-- User role, from `UserRole` in `app/models/user.py`: exactly `user` and
`admin`. -/
inductive Role where
  | user
  | admin
deriving DecidableEq, Repr

/-- User record, from the `User` model in `app/models/user.py`.  Timestamps
are abstract `Nat` instants. -/
structure User where
  id : Nat
  email : String
  hashed_password : String
  full_name : String
  role : Role
  is_active : Bool
  created_at : Nat
  updated_at : Nat
deriving DecidableEq, Repr

/-- Task record, from the `Task` model in `app/models/task.py`. -/
structure Task where
  id : Nat
  title : String
  description : String
  owner_id : Nat
  created_at : Nat
  updated_at : Nat
deriving DecidableEq, Repr

/-- Relational store state: the `users` and `tasks` tables plus the
autoincrement counters the store uses to assign fresh primary keys. -/
structure DB where
  users : List User
  tasks : List Task
  nextUserId : Nat
  nextTaskId : Nat
deriving DecidableEq, Repr

/-- Outcome of a request handler: either a success status code with a
payload, or an `HTTPException` with a status code and detail string. -/
inductive Resp (α : Type) where
  | ok (code : Nat) (val : α)
  | err (code : Nat) (detail : String)
deriving DecidableEq, Repr

/-- Registration request body, from `UserCreate` in
`app/schemas/user.py`. -/
structure UserCreate where
  email : String
  full_name : String
  password : String
deriving DecidableEq, Repr

/-- Login request body, from `UserLogin` in `app/schemas/user.py`. -/
structure UserLogin where
  email : String
  password : String
deriving DecidableEq, Repr

/-- JWT configuration from `Settings` in `app/core/config.py`:
`ACCESS_TOKEN_EXPIRE_MINUTES = 30`, `REFRESH_TOKEN_EXPIRE_DAYS = 7`.
Time is measured in minutes. -/
def ACCESS_TOKEN_EXPIRE_MINUTES : Nat := 30

/-- Refresh-token lifetime of `REFRESH_TOKEN_EXPIRE_DAYS = 7` days,
expressed in minutes. -/
def REFRESH_TOKEN_TTL_MINUTES : Nat := 7 * 24 * 60

/-- Token kind: access or refresh, per the spec's claim set. -/
inductive TokenKind where
  | access
  | refresh
deriving DecidableEq, Repr

/-- Claim set carried by a token.  `sub` is optional because the
dependency layer (`dependencies.py`) reads it with `payload.get("sub")`
and treats a missing subject as a failure. -/
structure Claims where
  sub : Option Nat
  email : String
  expires_at : Nat
  kind : TokenKind
deriving DecidableEq, Repr

/-- Modelled from the spec: `app/core/security.py` is not among the
provided sources.  Section 4.2 describes tokens as a claim set signed
with a server-held symmetric secret, where any tampering invalidates the
token and an unparseable string is invalid.  A token string is therefore
either a well-formed claim set together with the secret it was signed
with, or garbage. -/
inductive TokenString where
  | signed (claims : Claims) (secret : String)
  | malformed
deriving DecidableEq, Repr

/-- Modelled from the spec: `create_access_token` of the missing
`app/core/security.py`.  Mints an access token over
`{sub, email}` (as passed by `login` in `app/api/v1/auth.py`) expiring
`ACCESS_TOKEN_EXPIRE_MINUTES` after `now`, signed with the server
secret. -/
def create_access_token (secret : String) (now : Nat) (sub : Nat)
    (email : String) : TokenString :=
  TokenString.signed
    { sub := some sub, email := email,
      expires_at := now + ACCESS_TOKEN_EXPIRE_MINUTES,
      kind := TokenKind.access } secret

/-- Modelled from the spec: `create_refresh_token` of the missing
`app/core/security.py`, with the 7-day default lifetime. -/
def create_refresh_token (secret : String) (now : Nat) (sub : Nat)
    (email : String) : TokenString :=
  TokenString.signed
    { sub := some sub, email := email,
      expires_at := now + REFRESH_TOKEN_TTL_MINUTES,
      kind := TokenKind.refresh } secret

/-- Modelled from the spec: `verify_token` of the missing
`app/core/security.py`.  Section 4.2: verification fails (returns
invalid, never throws) when the signature does not match the server
secret, when `expires_at` has passed (strict comparison, no leeway), or
when the payload cannot be parsed; otherwise it returns the claims. -/
def verify_token (secret : String) (now : Nat) (tok : TokenString) :
    Option Claims :=
  match tok with
  | TokenString.malformed => none
  | TokenString.signed c s =>
      if s = secret ∧ now < c.expires_at then some c else none

/-- Modelled from the spec: `get_password_hash` of the missing
`app/core/security.py`.  Section 4.1: a one-way hash whose output is an
opaque string distinct from the plaintext. -/
def get_password_hash (plaintext : String) : String :=
  "bcrypt-hash-of:" ++ plaintext

/-- Modelled from the spec: `verify_password` of the missing
`app/core/security.py`.  Section 4.1: `verify(plaintext, hash)` is true
exactly for the plaintext the hash was derived from, and fails closed on
anything else. -/
def verify_password (plaintext : String) (hashed : String) : Bool :=
  get_password_hash plaintext == hashed

namespace CRUDUser

/-- `CRUDUser.get_by_email` in `app/crud/user.py`:
`db.query(User).filter(User.email == email).first()`. -/
def get_by_email (db : DB) (email : String) : Option User :=
  (db.users.filter (fun u => u.email == email)).head?

/-- `CRUDUser.get_by_id` in `app/crud/user.py`:
`db.query(User).filter(User.id == user_id).first()`. -/
def get_by_id (db : DB) (user_id : Nat) : Option User :=
  (db.users.filter (fun u => u.id == user_id)).head?

/-- `CRUDUser.create` in `app/crud/user.py`: hashes the password and
inserts a row with the model defaults `role = user`, `is_active = true`
and fresh timestamps; the store assigns the next id. -/
def create (now : Nat) (db : DB) (uc : UserCreate) : User × DB :=
  let u : User :=
    { id := db.nextUserId, email := uc.email,
      hashed_password := get_password_hash uc.password,
      full_name := uc.full_name, role := Role.user, is_active := true,
      created_at := now, updated_at := now }
  (u, { db with users := db.users ++ [u], nextUserId := db.nextUserId + 1 })

/-- `CRUDUser.authenticate` in `app/crud/user.py`: look up by email; if
absent return `None`; otherwise check the password and return the user
on success.  No `is_active` check here. -/
def authenticate (db : DB) (email password : String) : Option User :=
  match get_by_email db email with
  | none => none
  | some user =>
      if verify_password password user.hashed_password then some user
      else none

end CRUDUser

/-- Payload of a successful login, from `TokenResponse` in
`app/schemas/user.py`. -/
structure TokenResponse where
  access_token : TokenString
  refresh_token : TokenString
  token_type : String
  user : User
deriving DecidableEq, Repr

/-- `register` in `app/api/v1/auth.py`: reject with
400 "Email already registered" when a user with the email exists,
otherwise create the user and answer 201. -/
def register (now : Nat) (db : DB) (uc : UserCreate) : Resp User × DB :=
  match CRUDUser.get_by_email db uc.email with
  | some _ => (Resp.err 400 "Email already registered", db)
  | none =>
      let p := CRUDUser.create now db uc
      (Resp.ok 201 p.1, p.2)

/-- `login` in `app/api/v1/auth.py`: authenticate by email and password
(401 on failure), reject inactive accounts with 400, otherwise mint an
access and a refresh token over `{sub := user.id, email := user.email}`
and answer 200. -/
def login (secret : String) (now : Nat) (db : DB) (ul : UserLogin) :
    Resp TokenResponse :=
  match CRUDUser.authenticate db ul.email ul.password with
  | none => Resp.err 401 "Invalid email or password"
  | some user =>
      if user.is_active = false then
        Resp.err 400 "User account is inactive"
      else
        Resp.ok 200
          { access_token := create_access_token secret now user.id user.email,
            refresh_token := create_refresh_token secret now user.id user.email,
            token_type := "bearer", user := user }

/-- `get_current_user` in `app/core/dependencies.py`: verify the bearer
token, read the `sub` claim, and re-fetch the user from the store; every
failure raises the one `credentials_exception`
(401 "Could not validate credentials"). -/
def get_current_user (secret : String) (now : Nat) (db : DB)
    (token : TokenString) : Resp User :=
  match verify_token secret now token with
  | none => Resp.err 401 "Could not validate credentials"
  | some payload =>
      match payload.sub with
      | none => Resp.err 401 "Could not validate credentials"
      | some user_id =>
          match CRUDUser.get_by_id db user_id with
          | none => Resp.err 401 "Could not validate credentials"
          | some user => Resp.ok 200 user

/-- `get_current_active_user` in `app/core/dependencies.py`: reject a
resolved but inactive user with 400 "Inactive user". -/
def get_current_active_user (secret : String) (now : Nat) (db : DB)
    (token : TokenString) : Resp User :=
  match get_current_user secret now db token with
  | Resp.err c d => Resp.err c d
  | Resp.ok _ user =>
      if user.is_active = false then Resp.err 400 "Inactive user"
      else Resp.ok 200 user

/-- A bearer-protected endpoint as FastAPI assembles it: the
`get_current_active_user` dependency runs first, and only when it
resolves an active user does the route handler run against the store. -/
def run_protected {α : Type} (secret : String) (now : Nat) (db : DB)
    (token : TokenString) (handler : User → DB → Resp α × DB) :
    Resp α × DB :=
  match get_current_active_user secret now db token with
  | Resp.err c d => (Resp.err c d, db)
  | Resp.ok _ user => handler user db

/-- `get_me` in `app/api/v1/auth.py`: returns the user resolved by the
`get_current_active_user` dependency. -/
def get_me (secret : String) (now : Nat) (db : DB)
    (token : TokenString) : Resp User :=
  get_current_active_user secret now db token

/-- Task creation body, from `TaskCreate` in `app/schemas/task.py`. -/
structure TaskCreate where
  title : String
  description : String
deriving DecidableEq, Repr

/-- Task update body, from `TaskUpdate` in `app/schemas/task.py`: both
fields optional; `none` stands for a field the request did not supply
(Pydantic `exclude_unset`). -/
structure TaskUpdate where
  title : Option String
  description : Option String
deriving DecidableEq, Repr

namespace CRUDTask

/-- `CRUDTask.create` in `app/crud/task.py`: insert a row with the given
title, description and owner; the store assigns the next id and fresh
timestamps. -/
def create (now : Nat) (db : DB) (tc : TaskCreate) (owner_id : Nat) :
    Task × DB :=
  let t : Task :=
    { id := db.nextTaskId, title := tc.title,
      description := tc.description, owner_id := owner_id,
      created_at := now, updated_at := now }
  (t, { db with tasks := db.tasks ++ [t], nextTaskId := db.nextTaskId + 1 })

/-- `CRUDTask.get_by_id` in `app/crud/task.py`:
`db.query(Task).filter(Task.id == task_id).first()`. -/
def get_by_id (db : DB) (task_id : Nat) : Option Task :=
  (db.tasks.filter (fun t => t.id == task_id)).head?

/-- `CRUDTask.get_user_tasks` in `app/crud/task.py`:
`filter(Task.owner_id == owner_id).offset(skip).limit(limit).all()`. -/
def get_user_tasks (db : DB) (owner_id : Nat) (skip limit : Nat) :
    List Task :=
  (((db.tasks.filter (fun t => t.owner_id == owner_id)).drop skip).take limit)

/-- `CRUDTask.get_all` in `app/crud/task.py`:
`db.query(Task).offset(skip).limit(limit).all()`. -/
def get_all (db : DB) (skip limit : Nat) : List Task :=
  ((db.tasks.drop skip).take limit)

/-- `CRUDTask.get_user_task_count` in `app/crud/task.py`:
`filter(Task.owner_id == owner_id).count()`. -/
def get_user_task_count (db : DB) (owner_id : Nat) : Nat :=
  (db.tasks.filter (fun t => t.owner_id == owner_id)).length

/-- Field application of `CRUDTask.update` in `app/crud/task.py`:
`setattr` for exactly the supplied fields, with the store refreshing
`updated_at` on the mutation. -/
def applyUpdate (now : Nat) (t : Task) (upd : TaskUpdate) : Task :=
  { t with
    title := upd.title.getD t.title,
    description := upd.description.getD t.description,
    updated_at := now }

/-- `CRUDTask.update` in `app/crud/task.py`: mutate the fetched row and
commit it back to the store. -/
def update (now : Nat) (db : DB) (t : Task) (upd : TaskUpdate) :
    Task × DB :=
  let t2 := applyUpdate now t upd
  (t2, { db with
         tasks := db.tasks.map (fun x => if x.id = t.id then t2 else x) })

/-- `CRUDTask.delete` in `app/crud/task.py`: remove the row with the
given id when present. -/
def delete (db : DB) (task_id : Nat) : Bool × DB :=
  match get_by_id db task_id with
  | some _ =>
      (true, { db with tasks := db.tasks.filter (fun t => ¬(t.id = task_id)) })
  | none => (false, db)

end CRUDTask

/-- Count of all tasks: `db.query(Task).count()` as used by the admin
branch of `get_tasks` in `app/api/v1/tasks.py`. -/
def globalTaskCount (db : DB) : Nat := db.tasks.length

/-- Response of the list endpoint, from `TaskListResponse` in
`app/schemas/task.py`. -/
structure TaskListResponse where
  tasks : List Task
  total : Nat
deriving DecidableEq, Repr

/-- `create_task` in `app/api/v1/tasks.py`: no ownership check; the
current user becomes the owner and the created task is answered
with 201. -/
def create_task (now : Nat) (current_user : User) (db : DB)
    (tc : TaskCreate) : Resp Task × DB :=
  let p := CRUDTask.create now db tc current_user.id
  (Resp.ok 201 p.1, p.2)

/-- `get_tasks` in `app/api/v1/tasks.py`: admins get a store-wide page
and the global count, everyone else gets a page of their own tasks and
their own count. -/
def get_tasks (current_user : User) (db : DB) (skip limit : Nat) :
    TaskListResponse :=
  if current_user.role = Role.admin then
    { tasks := CRUDTask.get_all db skip limit, total := globalTaskCount db }
  else
    { tasks := CRUDTask.get_user_tasks db current_user.id skip limit,
      total := CRUDTask.get_user_task_count db current_user.id }

/-- `get_task` in `app/api/v1/tasks.py`: 404 when the task is absent,
403 when the caller is neither the owner nor an admin, otherwise the
task. -/
def get_task (current_user : User) (db : DB) (task_id : Nat) :
    Resp Task :=
  match CRUDTask.get_by_id db task_id with
  | none => Resp.err 404 "Task not found"
  | some task =>
      if task.owner_id ≠ current_user.id ∧ current_user.role ≠ Role.admin then
        Resp.err 403 "Not enough permissions"
      else
        Resp.ok 200 task

/-- `update_task` in `app/api/v1/tasks.py`: same existence and ownership
gates as `get_task`, then `CRUDTask.update`. -/
def update_task (now : Nat) (current_user : User) (db : DB)
    (task_id : Nat) (upd : TaskUpdate) : Resp Task × DB :=
  match CRUDTask.get_by_id db task_id with
  | none => (Resp.err 404 "Task not found", db)
  | some task =>
      if task.owner_id ≠ current_user.id ∧ current_user.role ≠ Role.admin then
        (Resp.err 403 "Not enough permissions", db)
      else
        let p := CRUDTask.update now db task upd
        (Resp.ok 200 p.1, p.2)

/-- `delete_task` in `app/api/v1/tasks.py`: same existence and ownership
gates, then `CRUDTask.delete` and a 204 with no content. -/
def delete_task (current_user : User) (db : DB) (task_id : Nat) :
    Resp Unit × DB :=
  match CRUDTask.get_by_id db task_id with
  | none => (Resp.err 404 "Task not found", db)
  | some task =>
      if task.owner_id ≠ current_user.id ∧ current_user.role ≠ Role.admin then
        (Resp.err 403 "Not enough permissions", db)
      else
        let p := CRUDTask.delete db task_id
        (Resp.ok 204 (), p.2)

/-- Emails of the user table are pairwise distinct: the store-level
uniqueness of `User.email` (`app/models/user.py`). -/
def uniqueEmails (db : DB) : Prop :=
  db.users.Pairwise (fun a b => a.email ≠ b.email)

/-! ## Theorems -/

/-- C1: for an authenticated active user `u` and a stored task `t`, the
single-task read, update and delete operations succeed if and only if
`u` is admin or owns `t`; when `u` is neither, each of the three fails
with 403; and create applies no ownership check, making the caller the
owner. -/
theorem C1_owner_or_admin_rule (now : Nat) (u : User) (db : DB)
    (task_id : Nat) (t : Task) (upd : TaskUpdate) (tc : TaskCreate)
    (ht : CRUDTask.get_by_id db task_id = some t) :
    ((∃ v, get_task u db task_id = Resp.ok 200 v) ↔
        (u.role = Role.admin ∨ u.id = t.owner_id)) ∧
    ((∃ v, (update_task now u db task_id upd).1 = Resp.ok 200 v) ↔
        (u.role = Role.admin ∨ u.id = t.owner_id)) ∧
    (((delete_task u db task_id).1 = Resp.ok 204 ()) ↔
        (u.role = Role.admin ∨ u.id = t.owner_id)) ∧
    (u.role ≠ Role.admin → u.id ≠ t.owner_id →
       get_task u db task_id = Resp.err 403 "Not enough permissions" ∧
       (update_task now u db task_id upd).1 =
         Resp.err 403 "Not enough permissions" ∧
       (delete_task u db task_id).1 =
         Resp.err 403 "Not enough permissions") ∧
    (∃ t2, (create_task now u db tc).1 = Resp.ok 201 t2 ∧
       t2.owner_id = u.id) := by
  by_cases hadm : u.role = Role.admin <;>
    by_cases hown : t.owner_id = u.id <;>
    simp [get_task, update_task, delete_task, create_task, ht, hadm, hown,
      Ne.symm, CRUDTask.update, CRUDTask.create, CRUDTask.delete, eq_comm]

/-- Sample admin user for the C1 witness. -/
def uC1 : User :=
  { id := 9, email := "a@x.com", hashed_password := "h", full_name := "",
    role := Role.admin, is_active := true, created_at := 0, updated_at := 0 }

/-- Sample task for the C1 witness, owned by user 5. -/
def tC1 : Task :=
  { id := 1, title := "T", description := "", owner_id := 5,
    created_at := 0, updated_at := 0 }

/-- Sample store for the C1 witness. -/
def dbC1 : DB :=
  { users := [], tasks := [tC1], nextUserId := 1, nextTaskId := 2 }

/-- Witness for C1 at a concrete store: an admin caller on a task owned
by someone else. -/
theorem C1_witness :
    CRUDTask.get_by_id dbC1 1 = some tC1 ∧
    ((∃ v, get_task uC1 dbC1 1 = Resp.ok 200 v) ↔
       (uC1.role = Role.admin ∨ uC1.id = tC1.owner_id)) :=
  ⟨by decide,
   (C1_owner_or_admin_rule 0 uC1 dbC1 1 tC1
     { title := none, description := none }
     { title := "x", description := "" } (by decide)).1⟩

/-- C7: when no task with the requested id exists, read, update and
delete answer 404 for every caller regardless of role or ownership; when
the task exists but the caller is neither owner nor admin they answer
403.  Absence dominates: the 404 branch needs no ownership facts at
all. -/
theorem C7_missing_then_forbidden (now : Nat) (u : User) (db : DB)
    (task_id : Nat) (upd : TaskUpdate) :
    (CRUDTask.get_by_id db task_id = none →
       get_task u db task_id = Resp.err 404 "Task not found" ∧
       (update_task now u db task_id upd).1 =
         Resp.err 404 "Task not found" ∧
       (delete_task u db task_id).1 = Resp.err 404 "Task not found") ∧
    (∀ t, CRUDTask.get_by_id db task_id = some t →
       u.role ≠ Role.admin → u.id ≠ t.owner_id →
       get_task u db task_id = Resp.err 403 "Not enough permissions" ∧
       (update_task now u db task_id upd).1 =
         Resp.err 403 "Not enough permissions" ∧
       (delete_task u db task_id).1 =
         Resp.err 403 "Not enough permissions") := by
  constructor
  · intro hnone
    simp [get_task, update_task, delete_task, hnone]
  · intro t ht hadm hown
    simp [get_task, update_task, delete_task, ht, hadm, Ne.symm hown]

/-- Sample non-admin user for the C7 witness, owner of nothing. -/
def uC7 : User :=
  { id := 2, email := "b@x.com", hashed_password := "h", full_name := "",
    role := Role.user, is_active := true, created_at := 0, updated_at := 0 }

/-- Sample store for the C7 witness, holding a single task of user 5. -/
def dbC7 : DB :=
  { users := [],
    tasks := [{ id := 1, title := "T", description := "", owner_id := 5,
                created_at := 0, updated_at := 0 }],
    nextUserId := 1, nextTaskId := 2 }

/-- Witness for C7 at a concrete store: a request for an id that does
not exist answers 404. -/
theorem C7_witness :
    CRUDTask.get_by_id dbC7 3 = none ∧
    get_task uC7 dbC7 3 = Resp.err 404 "Task not found" :=
  ⟨by decide,
   ((C7_missing_then_forbidden 0 uC7 dbC7 3
      { title := none, description := none }).1 (by decide)).1⟩

/-- C10: the task update operation changes only the supplied title or
description (unset fields keep their value), and id, owner id and
creation time survive every update; in particular a successful
update through the endpoint never changes the stored owner. -/
theorem C10_update_frame (now : Nat) (t : Task) (upd : TaskUpdate)
    (u : User) (db : DB) (task_id : Nat) :
    (CRUDTask.applyUpdate now t upd).id = t.id ∧
    (CRUDTask.applyUpdate now t upd).owner_id = t.owner_id ∧
    (CRUDTask.applyUpdate now t upd).created_at = t.created_at ∧
    (upd.title = none → (CRUDTask.applyUpdate now t upd).title = t.title) ∧
    (∀ s, upd.title = some s → (CRUDTask.applyUpdate now t upd).title = s) ∧
    (upd.description = none →
       (CRUDTask.applyUpdate now t upd).description = t.description) ∧
    (∀ s, upd.description = some s →
       (CRUDTask.applyUpdate now t upd).description = s) ∧
    (∀ t0 t2, CRUDTask.get_by_id db task_id = some t0 →
       (update_task now u db task_id upd).1 = Resp.ok 200 t2 →
       t2.owner_id = t0.owner_id) := by
  refine ⟨rfl, rfl, rfl, ?_, ?_, ?_, ?_, ?_⟩
  · intro h; simp [CRUDTask.applyUpdate, h]
  · intro s h; simp [CRUDTask.applyUpdate, h]
  · intro h; simp [CRUDTask.applyUpdate, h]
  · intro s h; simp [CRUDTask.applyUpdate, h]
  · intro t0 t2 h0 h2
    by_cases hc : t0.owner_id ≠ u.id ∧ u.role ≠ Role.admin
    · simp [update_task, h0, hc] at h2
    · simp [update_task, h0, hc, CRUDTask.update] at h2
      simp [← h2, CRUDTask.applyUpdate]

/-- Witness for C10 at a concrete task: an update supplying only a new
title keeps the description and never touches owner or creation time. -/
theorem C10_witness :
    (CRUDTask.applyUpdate 7
      { id := 1, title := "T", description := "D", owner_id := 5,
        created_at := 3, updated_at := 3 }
      { title := some "new", description := none }).title = "new" ∧
    (CRUDTask.applyUpdate 7
      { id := 1, title := "T", description := "D", owner_id := 5,
        created_at := 3, updated_at := 3 }
      { title := some "new", description := none }).owner_id = 5 :=
  ⟨(C10_update_frame 7
      { id := 1, title := "T", description := "D", owner_id := 5,
        created_at := 3, updated_at := 3 }
      { title := some "new", description := none } uC7 dbC7 1).2.2.2.2.1
      "new" rfl,
   (C10_update_frame 7
      { id := 1, title := "T", description := "D", owner_id := 5,
        created_at := 3, updated_at := 3 }
      { title := some "new", description := none } uC7 dbC7 1).2.1⟩

/-- C3: a minted access token verifies exactly while the current time is
strictly before its expiry; more generally a token signed with the
server secret is valid exactly when time is before `expires_at`, and a
token signed with any other secret never verifies. -/
theorem C3_token_validity (secret s2 : String) (now mint sub : Nat)
    (email : String) (c : Claims) :
    ((verify_token secret now
        (create_access_token secret mint sub email)).isSome ↔
       now < mint + ACCESS_TOKEN_EXPIRE_MINUTES) ∧
    (verify_token secret now (TokenString.signed c secret) = some c ↔
       now < c.expires_at) ∧
    (s2 ≠ secret →
       verify_token secret now (TokenString.signed c s2) = none) := by
  refine ⟨?_, ?_, ?_⟩
  · by_cases h : now < mint + ACCESS_TOKEN_EXPIRE_MINUTES <;>
      simp [create_access_token, verify_token, h]
  · by_cases h : now < c.expires_at <;> simp [verify_token, h]
  · intro h; simp [verify_token, h]

/-- Witness for C3: with the default 30-minute lifetime a token minted
at time 0 is alive at time 29 and a token signed with another secret is
rejected. -/
theorem C3_witness :
    ((verify_token "server-secret" 29
        (create_access_token "server-secret" 0 1 "a@x.com")).isSome ↔
       29 < 0 + ACCESS_TOKEN_EXPIRE_MINUTES) ∧
    ("other" ≠ "server-secret" ∧
     verify_token "server-secret" 29
       (TokenString.signed
         { sub := some 1, email := "a@x.com", expires_at := 99,
           kind := TokenKind.access } "other") = none) :=
  ⟨(C3_token_validity "server-secret" "other" 29 0 1 "a@x.com"
      { sub := some 1, email := "a@x.com", expires_at := 99,
        kind := TokenKind.access }).1,
   by decide,
   (C3_token_validity "server-secret" "other" 29 0 1 "a@x.com"
      { sub := some 1, email := "a@x.com", expires_at := 99,
        kind := TokenKind.access }).2.2 (by decide)⟩

/-- C4: every failure of identity resolution — unparseable token, wrong
signature, expired token, missing subject claim, or no user stored under
the subject id — produces the identical 401 response, and a success
always returns the user re-fetched from the store by subject id. -/
theorem C4_uniform_unauthenticated (secret : String) (now : Nat)
    (db : DB) :
    (get_current_user secret now db TokenString.malformed =
       Resp.err 401 "Could not validate credentials") ∧
    (∀ c s, s ≠ secret →
       get_current_user secret now db (TokenString.signed c s) =
         Resp.err 401 "Could not validate credentials") ∧
    (∀ c s, c.expires_at ≤ now →
       get_current_user secret now db (TokenString.signed c s) =
         Resp.err 401 "Could not validate credentials") ∧
    (∀ tok c, verify_token secret now tok = some c → c.sub = none →
       get_current_user secret now db tok =
         Resp.err 401 "Could not validate credentials") ∧
    (∀ tok c uid, verify_token secret now tok = some c →
       c.sub = some uid → CRUDUser.get_by_id db uid = none →
       get_current_user secret now db tok =
         Resp.err 401 "Could not validate credentials") ∧
    (∀ tok u, get_current_user secret now db tok = Resp.ok 200 u →
       ∃ c uid, verify_token secret now tok = some c ∧
         c.sub = some uid ∧ CRUDUser.get_by_id db uid = some u) := by
  refine ⟨?_, ?_, ?_, ?_, ?_, ?_⟩
  · simp [get_current_user, verify_token]
  · intro c s h; simp [get_current_user, verify_token, h]
  · intro c s h; simp [get_current_user, verify_token, Nat.not_lt.mpr h]
  · intro tok c hv hs; simp [get_current_user, hv, hs]
  · intro tok c uid hv hs hg; simp [get_current_user, hv, hs, hg]
  · intro tok u h
    cases hv : verify_token secret now tok with
    | none => simp [get_current_user, hv] at h
    | some c =>
      cases hs : c.sub with
      | none => simp [get_current_user, hv, hs] at h
      | some uid =>
        cases hg : CRUDUser.get_by_id db uid with
        | none => simp [get_current_user, hv, hs, hg] at h
        | some w =>
          simp [get_current_user, hv, hs, hg] at h
          exact ⟨c, uid, rfl, hs, by rw [hg, h]⟩

/-- Witness for C4: at an empty store a token with a wrong signature and
a well-signed token whose subject is not stored both get the one
401 response. -/
theorem C4_witness :
    ("evil" ≠ "server-secret" ∧
     get_current_user "server-secret" 0
       { users := [], tasks := [], nextUserId := 1, nextTaskId := 1 }
       (TokenString.signed
         { sub := some 1, email := "a@x.com", expires_at := 10,
           kind := TokenKind.access } "evil") =
       Resp.err 401 "Could not validate credentials") :=
  ⟨by decide,
   (C4_uniform_unauthenticated "server-secret" 0
     { users := [], tasks := [], nextUserId := 1, nextTaskId := 1 }).2.1
     { sub := some 1, email := "a@x.com", expires_at := 10,
       kind := TokenKind.access } "evil" (by decide)⟩

/-- C5: logging in with an email absent from the store and logging in
with a present email but a non-verifying password produce the same
observable result, the one generic 401 failure. -/
theorem C5_no_account_enumeration (secret : String) (now : Nat)
    (db : DB) (e1 p1 e2 p2 : String)
    (h1 : CRUDUser.get_by_email db e1 = none)
    (h2 : ∀ u, CRUDUser.get_by_email db e2 = some u →
       verify_password p2 u.hashed_password = false) :
    login secret now db { email := e1, password := p1 } =
      login secret now db { email := e2, password := p2 } ∧
    login secret now db { email := e1, password := p1 } =
      Resp.err 401 "Invalid email or password" := by
  have r1 : login secret now db { email := e1, password := p1 } =
      Resp.err 401 "Invalid email or password" := by
    simp [login, CRUDUser.authenticate, h1]
  have r2 : login secret now db { email := e2, password := p2 } =
      Resp.err 401 "Invalid email or password" := by
    cases hg : CRUDUser.get_by_email db e2 with
    | none => simp [login, CRUDUser.authenticate, hg]
    | some u => simp [login, CRUDUser.authenticate, hg, h2 u hg]
  exact ⟨r1.trans r2.symm, r1⟩

/-- Sample stored user for the C5 witness. -/
def uC5 : User :=
  { id := 1, email := "c@x.com",
    hashed_password := get_password_hash "rightpw", full_name := "",
    role := Role.user, is_active := true, created_at := 0, updated_at := 0 }

/-- Sample store for the C5 witness: only `c@x.com` is registered. -/
def dbC5 : DB :=
  { users := [uC5], tasks := [], nextUserId := 2, nextTaskId := 1 }

/-- Witness for C5: an unknown email and a known email with the wrong
password are indistinguishable. -/
theorem C5_witness :
    login "s" 0 dbC5 { email := "nobody@x.com", password := "p" } =
      login "s" 0 dbC5 { email := "c@x.com", password := "wrongpw" } ∧
    login "s" 0 dbC5 { email := "nobody@x.com", password := "p" } =
      Resp.err 401 "Invalid email or password" :=
  C5_no_account_enumeration "s" 0 dbC5 "nobody@x.com" "p" "c@x.com"
    "wrongpw" (by decide)
    (by
      intro u hu
      have h0 : CRUDUser.get_by_email dbC5 "c@x.com" = some uC5 := by decide
      rw [h0] at hu
      cases hu
      decide)

/-- C6: password authentication itself never consults `is_active` (it is
exactly email lookup plus password check); correct credentials on an
inactive account fail login with the 400 inactive-account response,
distinct from the 401 bad-credentials response; and a bearer-protected
endpoint rejects a resolved inactive user with 400 without running its
handler or touching the store. -/
theorem C6_inactive_distinct_gate (secret : String) (now : Nat) :
    (∀ db e p u, CRUDUser.authenticate db e p = some u ↔
       (CRUDUser.get_by_email db e = some u ∧
        verify_password p u.hashed_password = true)) ∧
    (∀ db ul u, CRUDUser.authenticate db ul.email ul.password = some u →
       u.is_active = false →
       login secret now db ul = Resp.err 400 "User account is inactive") ∧
    ((Resp.err 400 "User account is inactive" : Resp TokenResponse) ≠
       Resp.err 401 "Invalid email or password") ∧
    (∀ (α : Type) (db : DB) (tok : TokenString) (u : User)
       (handler : User → DB → Resp α × DB),
       get_current_user secret now db tok = Resp.ok 200 u →
       u.is_active = false →
       run_protected secret now db tok handler =
         (Resp.err 400 "Inactive user", db)) := by
  refine ⟨?_, ?_, ?_, ?_⟩
  · intro db e p u
    constructor
    · intro h
      cases hg : CRUDUser.get_by_email db e with
      | none => simp [CRUDUser.authenticate, hg] at h
      | some w =>
        by_cases hv : verify_password p w.hashed_password
        · simp [CRUDUser.authenticate, hg, hv] at h
          exact ⟨by rw [h], by rw [← h]; exact hv⟩
        · simp [CRUDUser.authenticate, hg, hv] at h
    · rintro ⟨hg, hv⟩
      simp [CRUDUser.authenticate, hg, hv]
  · intro db ul u h hi
    simp [login, h, hi]
  · simp
  · intro α db tok u handler h hi
    simp [run_protected, get_current_active_user, h, hi]

/-- Inactive sample user for the C6 witness, with a verifying
password. -/
def uC6 : User :=
  { id := 1, email := "i@x.com",
    hashed_password := get_password_hash "pw123456", full_name := "",
    role := Role.user, is_active := false, created_at := 0,
    updated_at := 0 }

/-- Sample store for the C6 witness. -/
def dbC6 : DB :=
  { users := [uC6], tasks := [], nextUserId := 2, nextTaskId := 1 }

/-- Witness for C6: correct credentials on the inactive account yield
the 400 inactive response, not a 401. -/
theorem C6_witness :
    login "s" 0 dbC6 { email := "i@x.com", password := "pw123456" } =
      Resp.err 400 "User account is inactive" :=
  (C6_inactive_distinct_gate "s" 0).2.1 dbC6
    { email := "i@x.com", password := "pw123456" } uC6 (by decide)
    (by decide)

/-- C2: the list endpoint scopes tasks and total identically.  A
non-admin gets a total equal to the number of tasks they own, every task
on the returned page is theirs, and from the first page with a large
enough limit exactly their N owned tasks; an admin gets the global count
as total and a page of the whole store. -/
theorem C2_list_scope (u : User) (db : DB) (skip limit : Nat) :
    (u.role ≠ Role.admin →
       (get_tasks u db skip limit).total =
         (db.tasks.filter (fun t => t.owner_id == u.id)).length ∧
       (∀ t ∈ (get_tasks u db skip limit).tasks, t.owner_id = u.id) ∧
       (skip = 0 →
          (db.tasks.filter (fun t => t.owner_id == u.id)).length ≤ limit →
          (get_tasks u db skip limit).tasks =
            db.tasks.filter (fun t => t.owner_id == u.id))) ∧
    (u.role = Role.admin →
       (get_tasks u db skip limit).total = db.tasks.length ∧
       (get_tasks u db skip limit).tasks =
         (db.tasks.drop skip).take limit) := by
  constructor
  · intro h
    refine ⟨?_, ?_, ?_⟩
    · simp [get_tasks, h, CRUDTask.get_user_task_count]
    · intro t ht
      have ht2 : t ∈ (((db.tasks.filter
          (fun x => x.owner_id == u.id)).drop skip).take limit) := by
        simpa [get_tasks, h, CRUDTask.get_user_tasks] using ht
      have h1 := List.mem_of_mem_drop (List.mem_of_mem_take ht2)
      have h2 := (List.mem_filter.mp h1).2
      simpa using h2
    · intro hs hl
      simp [get_tasks, h, CRUDTask.get_user_tasks, hs,
        List.take_of_length_le hl]
  · intro h
    simp [get_tasks, h, CRUDTask.get_all, globalTaskCount]

/-- Sample non-admin owner for the C2 witness, owner of one of the two
stored tasks. -/
def uC2 : User :=
  { id := 3, email := "d@x.com", hashed_password := "h", full_name := "",
    role := Role.user, is_active := true, created_at := 0, updated_at := 0 }

/-- Sample store for the C2 witness: one task owned by user 3 and one
owned by user 4. -/
def dbC2 : DB :=
  { users := [],
    tasks := [{ id := 1, title := "mine", description := "",
                owner_id := 3, created_at := 0, updated_at := 0 },
              { id := 2, title := "other", description := "",
                owner_id := 4, created_at := 0, updated_at := 0 }],
    nextUserId := 1, nextTaskId := 3 }

/-- Witness for C2: the non-admin owner of one of two tasks gets
`total = 1`. -/
theorem C2_witness :
    uC2.role ≠ Role.admin ∧
    (get_tasks uC2 dbC2 0 100).total =
      (dbC2.tasks.filter (fun t => t.owner_id == uC2.id)).length :=
  ⟨by decide, ((C2_list_scope uC2 dbC2 0 100).1 (by decide)).1⟩

/-- Absence of an email is absence from the whole user table: the
`filter ... head?` query returns `none` exactly when no stored user
carries the email. -/
theorem get_by_email_eq_none (db : DB) (e : String) :
    CRUDUser.get_by_email db e = none ↔
      ∀ u ∈ db.users, ¬(u.email = e) := by
  rw [CRUDUser.get_by_email, List.head?_eq_none_iff, List.filter_eq_nil_iff]
  simp

/-- C8: registering a fresh email succeeds with 201, registering the
same email again fails with the 400 conflict whatever the other request
fields are, and registration preserves pairwise-distinct emails, so
every store state reachable through `register` keeps emails unique. -/
theorem C8_register_conflict (now1 now2 : Nat) (db : DB)
    (uc1 uc2 : UserCreate) (hsame : uc2.email = uc1.email)
    (hfresh : CRUDUser.get_by_email db uc1.email = none) :
    (∃ v, (register now1 db uc1).1 = Resp.ok 201 v) ∧
    (register now2 (register now1 db uc1).2 uc2).1 =
      Resp.err 400 "Email already registered" ∧
    (∀ (now : Nat) (db2 : DB) (uc : UserCreate),
       uniqueEmails db2 → uniqueEmails (register now db2 uc).2) := by
  have hfilter : db.users.filter (fun x => x.email == uc1.email) = [] := by
    rw [List.filter_eq_nil_iff]
    intro a ha
    simpa using (get_by_email_eq_none db uc1.email).mp hfresh a ha
  refine ⟨?_, ?_, ?_⟩
  · simp [register, hfresh, CRUDUser.create]
  · simp [register, hfresh, CRUDUser.create, CRUDUser.get_by_email,
      List.filter_append, hfilter, hsame]
  · intro now db2 uc hu
    cases hg : CRUDUser.get_by_email db2 uc.email with
    | some w => simpa [register, hg] using hu
    | none =>
      have hne := (get_by_email_eq_none db2 uc.email).mp hg
      simp only [register, hg, CRUDUser.create]
      rw [uniqueEmails] at hu ⊢
      rw [List.pairwise_append]
      refine ⟨hu, List.pairwise_singleton _ _, ?_⟩
      intro a ha b hb
      simp only [List.mem_singleton] at hb
      subst hb
      exact hne a ha

/-- Witness for C8: two registrations of `e@x.com` against an empty
store: the first answers 201, the second answers the 400 conflict. -/
theorem C8_witness :
    (∃ v, (register 0
      { users := [], tasks := [], nextUserId := 1, nextTaskId := 1 }
      { email := "e@x.com", full_name := "A", password := "pw123456" }).1 =
        Resp.ok 201 v) ∧
    (register 1 (register 0
      { users := [], tasks := [], nextUserId := 1, nextTaskId := 1 }
      { email := "e@x.com", full_name := "A", password := "pw123456" }).2
      { email := "e@x.com", full_name := "B", password := "qw123456" }).1 =
      Resp.err 400 "Email already registered" :=
  ⟨(C8_register_conflict 0 1
      { users := [], tasks := [], nextUserId := 1, nextTaskId := 1 }
      { email := "e@x.com", full_name := "A", password := "pw123456" }
      { email := "e@x.com", full_name := "B", password := "qw123456" }
      rfl (by decide)).1,
   (C8_register_conflict 0 1
      { users := [], tasks := [], nextUserId := 1, nextTaskId := 1 }
      { email := "e@x.com", full_name := "A", password := "pw123456" }
      { email := "e@x.com", full_name := "B", password := "qw123456" }
      rfl (by decide)).2.1⟩

/-- C9: for a fresh email (and a store whose autoincrement counter is
really fresh), register, then login with the same credentials, then `me`
with the returned access token all succeed, and `me` returns the
registered user, whose email is the registration input. -/
theorem C9_round_trip (secret : String) (t0 t1 t2 : Nat) (db : DB)
    (uc : UserCreate)
    (hfresh : CRUDUser.get_by_email db uc.email = none)
    (hid : ∀ u ∈ db.users, u.id ≠ db.nextUserId)
    (htime : t2 < t1 + ACCESS_TOKEN_EXPIRE_MINUTES) :
    ∃ u lr, (register t0 db uc).1 = Resp.ok 201 u ∧
      login secret t1 (register t0 db uc).2
        { email := uc.email, password := uc.password } = Resp.ok 200 lr ∧
      get_me secret t2 (register t0 db uc).2 lr.access_token =
        Resp.ok 200 u ∧
      u.email = uc.email := by
  have hfilter : db.users.filter (fun x => x.email == uc.email) = [] := by
    rw [List.filter_eq_nil_iff]
    intro a ha
    simpa using (get_by_email_eq_none db uc.email).mp hfresh a ha
  have hidfilter :
      db.users.filter (fun x => x.id == db.nextUserId) = [] := by
    rw [List.filter_eq_nil_iff]
    intro a ha
    simpa using hid a ha
  refine ⟨{ id := db.nextUserId, email := uc.email,
            hashed_password := get_password_hash uc.password,
            full_name := uc.full_name, role := Role.user,
            is_active := true, created_at := t0, updated_at := t0 },
          { access_token :=
              create_access_token secret t1 db.nextUserId uc.email,
            refresh_token :=
              create_refresh_token secret t1 db.nextUserId uc.email,
            token_type := "bearer",
            user := { id := db.nextUserId, email := uc.email,
                      hashed_password := get_password_hash uc.password,
                      full_name := uc.full_name, role := Role.user,
                      is_active := true, created_at := t0,
                      updated_at := t0 } },
          ?_, ?_, ?_, rfl⟩
  · simp [register, hfresh, CRUDUser.create]
  · simp [register, hfresh, CRUDUser.create, login, CRUDUser.authenticate,
      CRUDUser.get_by_email, List.filter_append, hfilter, verify_password]
  · simp [register, hfresh, CRUDUser.create, login, CRUDUser.authenticate,
      CRUDUser.get_by_email, List.filter_append, hfilter, verify_password,
      get_me, get_current_active_user, get_current_user, verify_token,
      create_access_token, htime, CRUDUser.get_by_id, hidfilter]

/-- Witness for C9 at an empty store: registering `f@x.com` then logging
in and asking `me` round-trips the email. -/
theorem C9_witness :
    ∃ u lr, (register 0
      { users := [], tasks := [], nextUserId := 1, nextTaskId := 1 }
      { email := "f@x.com", full_name := "F", password := "pw123456" }).1 =
        Resp.ok 201 u ∧
      login "server-secret" 5 (register 0
        { users := [], tasks := [], nextUserId := 1, nextTaskId := 1 }
        { email := "f@x.com", full_name := "F", password := "pw123456" }).2
        { email := "f@x.com", password := "pw123456" } = Resp.ok 200 lr ∧
      get_me "server-secret" 6 (register 0
        { users := [], tasks := [], nextUserId := 1, nextTaskId := 1 }
        { email := "f@x.com", full_name := "F", password := "pw123456" }).2
        lr.access_token = Resp.ok 200 u ∧
      u.email = "f@x.com" :=
  C9_round_trip "server-secret" 0 5 6
    { users := [], tasks := [], nextUserId := 1, nextTaskId := 1 }
    { email := "f@x.com", full_name := "F", password := "pw123456" }
    (by decide) (by decide) (by decide)

end App
